import Mathlib

/-!
Verification of the bulk processing engine in `modal-processor/main.py`.

The Python module has three layers:

* `_process_single_row` — compiles the prompt for one CSV row, calls the
  generation service, classifies the outcome, and inserts a result record;
* `process_row` — the per-row dispatch wrapper that resolves environment
  configuration and falls back to an error result when it is missing;
* `_process_batch_internal` — the batch orchestrator that checks its own
  configuration, marks the batch `processing`, fans the rows out through
  Modal `starmap`, aggregates counts, writes the terminal batch status and
  returns a summary.

External effects (client construction, the generation call, store writes,
the fan-out delivery) are modelled by explicit outcome parameters of type
`Except String _`: `.ok` is a normal return, `.error e` is a raised
exception with message `e`.  Rows are association lists of column name to
string value, mirroring `Dict[str, str]`.  Wall-clock timing fields of the
summary are real-time measurements and are omitted from the model.
-/

namespace BulkGpt

/-- A per-row result dictionary: `{"id": ..., "output": ..., "status": ...,
"error": ...}` as returned by `_process_single_row` / `process_row`. -/
structure RowResult where
  id : String
  output : String
  status : String
  error : Option String
deriving Repr, DecidableEq

/-- Outcomes of the external effects performed while processing one row:
`initResult` models `genai.configure` + `create_client` (main.py lines
89–90, before the `try` block); `serviceResult` models
`model.generate_content` (line 115), where `.ok t` is a response whose
usable text is `t` (`t = ""` covers an empty or missing response body);
`insertResult` models the `batch_results` insert (lines 127–138). -/
structure RowEnv where
  initResult : Except String Unit
  serviceResult : Except String String
  insertResult : Except String Unit
deriving Repr

/-- The fallback text substituted for an empty/missing response
(main.py line 116). -/
def noResponseFallback : String := "No response generated"

/-- `f"{{{{{key}}}}}"` (main.py line 97): the literal template placeholder
for a column name. -/
def placeholderOf (key : String) : String := "\x7b\x7b" ++ key ++ "\x7d\x7d"

/-- `f"{batch_id}-row-{row_index}"`: the synthesized row identifier used at
main.py lines 86 and 188. -/
def syntheticRowId (batch_id : String) (row_index : Nat) : String :=
  batch_id ++ "-row-" ++ Nat.repr row_index

/-- `row.get("id", f"{batch_id}-row-{row_index}")` (main.py line 86). -/
def rowId (batch_id : String) (row : List (String × String)) (row_index : Nat) : String :=
  match row.lookup "id" with
  | some v => v
  | none => syntheticRowId batch_id row_index

/-- The template-substitution loop of main.py lines 94–98: fold over the
row's entries, replacing every occurrence of `{{key}}` by the value for
each non-`id` key whose value is truthy (non-empty). -/
def substituteRow (row : List (String × String)) (template : String) : String :=
  row.foldl
    (fun acc kv =>
      if kv.1 != "id" && kv.2 != "" then acc.replace (placeholderOf kv.1) kv.2 else acc)
    template

/-- `if context: final_prompt = f"Context: {context}\n\n{final_prompt}"`
(main.py lines 101–102). -/
def addContext (context s : String) : String :=
  if context != "" then "Context: " ++ context ++ "\n\n" ++ s else s

/-- `if output_schema: final_prompt += f"\n\nExpected output format: {', '.join(output_schema)}"`
(main.py lines 105–107). -/
def addSchemaHint (output_schema : List String) (s : String) : String :=
  if !output_schema.isEmpty then
    s ++ "\n\nExpected output format: " ++ String.intercalate ", " output_schema
  else s

/-- The prompt construction of main.py lines 93–107, inline as in the
source: substitution loop, then the context prefix, then the schema
suffix. -/
def compilePrompt (row : List (String × String)) (prompt context : String)
    (output_schema : List String) : String :=
  let final_prompt := row.foldl
    (fun acc kv =>
      if kv.1 != "id" && kv.2 != "" then acc.replace (placeholderOf kv.1) kv.2 else acc)
    prompt
  let final_prompt :=
    if context != "" then "Context: " ++ context ++ "\n\n" ++ final_prompt else final_prompt
  if !output_schema.isEmpty then
    final_prompt ++ "\n\nExpected output format: " ++ String.intercalate ", " output_schema
  else final_prompt

/-- `_process_single_row` (main.py lines 51–147).  The row id is computed
first (line 86); client initialization (lines 89–90) happens *before* the
`try` block, so a failure there propagates as `.error`.  Inside the `try`,
the prompt is compiled and the service is called; a raised service failure
is caught at line 120 and classified as an error result.  The
`batch_results` insert has its own `try/except` (lines 127–140), so its
outcome never affects the returned result. -/
def _process_single_row (batch_id : String) (row : List (String × String)) (row_index : Nat)
    (prompt context : String) (output_schema : List String) (env : RowEnv) :
    Except String RowResult :=
  let row_id := rowId batch_id row row_index
  match env.initResult with
  | .error e => .error e
  | .ok _ =>
    let _final_prompt := compilePrompt row prompt context output_schema
    match env.serviceResult with
    | .ok t =>
        .ok { id := row_id, output := if t != "" then t else noResponseFallback,
              status := "success", error := none }
    | .error e =>
        .ok { id := row_id, output := "", status := "error", error := some e }

/-- The environment variables read by `process_row` (main.py lines
182–184): `GEMINI_API_KEY`, `NEXT_PUBLIC_SUPABASE_URL`, `SUPABASE_URL`,
`SUPABASE_SERVICE_ROLE_KEY`.  `none` is an unset variable; `some ""` is a
set-but-empty (falsy) one. -/
structure ModalEnvVars where
  gemini_api_key : Option String
  next_public_supabase_url : Option String
  supabase_url : Option String
  supabase_service_role_key : Option String
deriving Repr, DecidableEq

/-- Python truthiness of an `os.getenv` result: present and non-empty. -/
def truthy : Option String → Bool
  | none => false
  | some s => s != ""

/-- `os.getenv("NEXT_PUBLIC_SUPABASE_URL") or os.getenv("SUPABASE_URL")`
(main.py line 183). -/
def resolvedSupabaseUrl (cfg : ModalEnvVars) : Option String :=
  if truthy cfg.next_public_supabase_url then cfg.next_public_supabase_url else cfg.supabase_url

/-- `all([gemini_api_key, supabase_url, supabase_key])` (main.py line 186). -/
def configOk (cfg : ModalEnvVars) : Bool :=
  truthy cfg.gemini_api_key && truthy (resolvedSupabaseUrl cfg)
    && truthy cfg.supabase_service_role_key

/-- `process_row` (main.py lines 156–205): when any required environment
variable is missing it returns the fixed configuration-error result (note:
with the *synthesized* identifier, ignoring any explicit `id` column);
otherwise it delegates to `_process_single_row`. -/
def process_row (batch_id : String) (row : List (String × String)) (row_index : Nat)
    (prompt context : String) (output_schema : List String)
    (cfg : ModalEnvVars) (env : RowEnv) : Except String RowResult :=
  if !configOk cfg then
    .ok { id := syntheticRowId batch_id row_index, output := "", status := "error",
          error := some "Missing required environment variables" }
  else
    _process_single_row batch_id row row_index prompt context output_schema env

/-- An attempted update of the `batches` table (main.py lines 250–252 and
275–281): the status written, and the `processed_rows` value when present. -/
structure BatchUpdate where
  status : String
  processed_rows : Option Nat
deriving Repr, DecidableEq

/-- The summary dictionary built at main.py lines 286–295 (timing fields
omitted: they are wall-clock measurements). -/
structure Summary where
  batch_id : String
  total_rows : Nat
  successful : Nat
  failed : Nat
  status : String
  results : List RowResult
deriving Repr, DecidableEq

/-- Environment of `_process_batch_internal` (main.py lines 230–254,
274–283): the supabase variables it reads, the outcome of
`create_client` (line 239), and the outcomes of the two best-effort
`batches` updates (both wrapped in `try/except`). -/
structure OrchestratorEnv where
  next_public_supabase_url : Option String
  supabase_url : Option String
  supabase_service_role_key : Option String
  clientInit : Except String Unit
  statusUpdateResult : Except String Unit
  finalizeResult : Except String Unit
deriving Repr

/-- The orchestrator's resolved supabase URL (main.py line 231). -/
def orchestratorSupabaseUrl (env : OrchestratorEnv) : Option String :=
  if truthy env.next_public_supabase_url then env.next_public_supabase_url else env.supabase_url

/-- `all([supabase_url, supabase_key])` at main.py line 234 (the
orchestrator checks only the store configuration; the generation key is
checked per row). -/
def orchestratorConfigOk (env : OrchestratorEnv) : Bool :=
  truthy (orchestratorSupabaseUrl env) && truthy env.supabase_service_role_key

/-- The `try/except` around the fan-out (main.py lines 257–264): the
delivered result list, or an empty list when the parallel dispatch itself
raised. -/
def deliveredResults (fanout : Except String (List RowResult)) : List RowResult :=
  match fanout with
  | .ok rs => rs
  | .error _ => []

/-- `_process_batch_internal` (main.py lines 208–302).  `fanout` is the
outcome of `list(process_row.starmap(...))` (lines 257–261): `.ok rs` is
the delivered result list, `.error` a raised fan-out failure, which line
262 converts to an empty result list.  The two `batches` updates are
recorded as attempted writes; their outcomes (`statusUpdateResult`,
`finalizeResult`) are swallowed by `try/except` (lines 249–254, 274–283)
and never influence the returned summary. -/
def _process_batch_internal (batch_id : String) (rows : List (List (String × String)))
    (_prompt : String) (_context : String) (_output_schema : Option (List String))
    (env : OrchestratorEnv) (fanout : Except String (List RowResult)) :
    Except String (Summary × List BatchUpdate) :=
  if !orchestratorConfigOk env then
    .error "Missing required environment variables: SUPABASE_URL, SUPABASE_SERVICE_ROLE_KEY"
  else
    match env.clientInit with
    | .error e => .error ("Failed to initialize Supabase client: " ++ e)
    | .ok _ =>
      let processingWrite : BatchUpdate := { status := "processing", processed_rows := none }
      let results := deliveredResults fanout
      let successful_count := results.countP (fun r => r.status == "success")
      let error_count := results.countP (fun r => r.status == "error")
      let completion_status := if error_count == 0 then "completed" else "completed_with_errors"
      let finalWrite : BatchUpdate :=
        { status := completion_status, processed_rows := some successful_count }
      .ok ({ batch_id := batch_id, total_rows := rows.length, successful := successful_count,
             failed := error_count, status := completion_status, results := results },
           [processingWrite, finalWrite])

/-- The list of per-row computations submitted to Modal `starmap` at
main.py lines 258–261: `process_row` applied to each row with its
enumeration index, with `context or ""` and `output_schema or []`
normalisation.  `rowEnvs i` is the effect environment of the container
processing row `i`. -/
def starmapOutcomes (batch_id : String) (rows : List (List (String × String)))
    (prompt context : String) (output_schema : Option (List String))
    (cfg : ModalEnvVars) (rowEnvs : Nat → RowEnv) : List (Except String RowResult) :=
  rows.enum.map fun p =>
    process_row batch_id p.2 p.1 prompt context (output_schema.getD []) cfg (rowEnvs p.1)

/-- Modal's `starmap` contract: the tasks complete in an arbitrary order
(`completions` lists index-tagged results in completion order), but the
iterator yields outputs aligned to the input order.  Modelled as a lookup
of each input index in turn. -/
def alignByIndex (n : Nat) (completions : List (Nat × RowResult)) : List RowResult :=
  (List.range n).filterMap fun i => completions.lookup i

/-! ### Helper lemmas -/

/-- Unfolding equation for `_process_single_row`. -/
theorem processSingleRow_eq (batch_id : String) (row : List (String × String)) (row_index : Nat)
    (prompt context : String) (output_schema : List String) (env : RowEnv) :
    _process_single_row batch_id row row_index prompt context output_schema env =
      match env.initResult with
      | .error e => .error e
      | .ok _ =>
        match env.serviceResult with
        | .ok t =>
            .ok { id := rowId batch_id row row_index,
                  output := if t != "" then t else noResponseFallback,
                  status := "success", error := none }
        | .error e =>
            .ok { id := rowId batch_id row row_index, output := "", status := "error",
                  error := some e } := rfl

/-- Inversion for a successful run of `_process_batch_internal`: the
summary and writes are determined by the delivered results. -/
theorem processBatchInternal_inv (batch_id : String) (rows : List (List (String × String)))
    (prompt context : String) (output_schema : Option (List String))
    (env : OrchestratorEnv) (fanout : Except String (List RowResult))
    (s : Summary) (writes : List BatchUpdate)
    (h : _process_batch_internal batch_id rows prompt context output_schema env fanout =
      .ok (s, writes)) :
    orchestratorConfigOk env = true ∧ env.clientInit = .ok () ∧
      s = { batch_id := batch_id, total_rows := rows.length,
            successful := (deliveredResults fanout).countP (fun r => r.status == "success"),
            failed := (deliveredResults fanout).countP (fun r => r.status == "error"),
            status := if (deliveredResults fanout).countP (fun r => r.status == "error") == 0
              then "completed" else "completed_with_errors",
            results := deliveredResults fanout } ∧
      writes = [{ status := "processing", processed_rows := none },
                { status := s.status, processed_rows := some s.successful }] := by
  unfold _process_batch_internal at h
  by_cases hc : orchestratorConfigOk env
  · simp only [hc, Bool.not_true, Bool.false_eq_true, if_false] at h
    cases hi : env.clientInit with
    | error e => rw [hi] at h; cases h
    | ok u =>
      rw [hi] at h
      cases h
      exact ⟨hc, rfl, rfl, rfl⟩

  · simp only [Bool.not_eq_true] at hc
    rw [hc] at h
    cases h

/-- A run of `_process_batch_internal` that passes the configuration and
client-initialization checks returns normally, with summary and writes
computed from the delivered results. -/
theorem processBatchInternal_ok (batch_id : String) (rows : List (List (String × String)))
    (prompt context : String) (output_schema : Option (List String))
    (env : OrchestratorEnv) (fanout : Except String (List RowResult))
    (hcfg : orchestratorConfigOk env = true) (hinit : env.clientInit = .ok ()) :
    _process_batch_internal batch_id rows prompt context output_schema env fanout =
      .ok ({ batch_id := batch_id, total_rows := rows.length,
             successful := (deliveredResults fanout).countP (fun r => r.status == "success"),
             failed := (deliveredResults fanout).countP (fun r => r.status == "error"),
             status := if (deliveredResults fanout).countP (fun r => r.status == "error") == 0
               then "completed" else "completed_with_errors",
             results := deliveredResults fanout },
           [{ status := "processing", processed_rows := none },
            { status := if (deliveredResults fanout).countP (fun r => r.status == "error") == 0
                then "completed" else "completed_with_errors",
              processed_rows :=
                some ((deliveredResults fanout).countP (fun r => r.status == "success")) }]) := by
  unfold _process_batch_internal
  simp only [hcfg, Bool.not_true, Bool.false_eq_true, if_false, hinit]

/-! ### C1 — classification of service outcomes -/

/-- C1, counterexample: a generation call that returns no usable text
(`serviceResult = .ok ""`, covering an empty or missing response body) is
*not* classified as an error: the claim "the row processor classifies the
row with status `error`, records an empty output string" is false at this
input — the code (main.py line 116) classifies it `success` with the
fallback output `No response generated`. -/
theorem c1_counterexample :
    ¬ (∀ r, _process_single_row "b" [] 0 "p" "" []
          { initResult := .ok (), serviceResult := .ok "", insertResult := .ok () } = .ok r →
        r.status = "error" ∧ r.output = "") := by
  intro h
  exact absurd (h ⟨"b-row-0", "No response generated", "success", none⟩ rfl).1 (by decide)

/-- C1 (amended): when client initialization succeeds, a service call that
*raises* yields status `error`, empty output and the stringified failure
reason; a call that *returns* — even with an empty or missing body —
yields status `success`, with the returned text as output, or the fallback
text `No response generated` when the text is empty. -/
theorem c1_empty_response_is_success (batch_id : String) (row : List (String × String))
    (row_index : Nat) (prompt context : String) (output_schema : List String) (env : RowEnv)
    (hinit : env.initResult = .ok ()) :
    (∀ e, env.serviceResult = .error e →
      _process_single_row batch_id row row_index prompt context output_schema env =
        .ok { id := rowId batch_id row row_index, output := "", status := "error",
              error := some e })
    ∧ (∀ t, env.serviceResult = .ok t →
      _process_single_row batch_id row row_index prompt context output_schema env =
        .ok { id := rowId batch_id row row_index,
              output := if t != "" then t else noResponseFallback,
              status := "success", error := none }) := by
  rw [processSingleRow_eq, hinit]
  exact ⟨fun e he => by rw [he], fun t ht => by rw [ht]⟩

/-- C1 witness: concrete instance of the amended claim — a raised service
failure `boom` produces the error-classified result. -/
theorem c1_empty_response_is_success_witness :
    _process_single_row "b" [("id", "r1")] 0 "p" "" []
        { initResult := .ok (), serviceResult := .error "boom", insertResult := .ok () } =
      .ok { id := "r1", output := "", status := "error", error := some "boom" } :=
  (c1_empty_response_is_success "b" [("id", "r1")] 0 "p" "" []
    { initResult := .ok (), serviceResult := .error "boom", insertResult := .ok () } rfl).1
    "boom" rfl

/-! ### C2 — terminal batch status -/

/-- C2, counterexample: a batch of one row whose fan-out fails delivers an
empty result list, and the orchestrator computes and persists status
`completed` although no row of the batch has a `success` result — the
claim "`completed` iff every row of the batch has a result record with
status `success` … even when the collected results list is shorter than
the input row list" is false at this input. -/
theorem c2_counterexample :
    _process_batch_internal "b1" [[("a", "1")]] "p" "" none
        { next_public_supabase_url := some "u", supabase_url := none,
          supabase_service_role_key := some "k",
          clientInit := .ok (), statusUpdateResult := .ok (), finalizeResult := .ok () }
        (.error "fan-out failure") =
      .ok ({ batch_id := "b1", total_rows := 1, successful := 0, failed := 0,
             status := "completed", results := [] },
           [{ status := "processing", processed_rows := none },
            { status := "completed", processed_rows := some 0 }]) := rfl

/-- C2 (amended): the terminal status computed and persisted by the
orchestrator is `completed` iff no *collected* result has status `error`,
and `completed_with_errors` otherwise; the count is over the delivered
results only, so a fan-out failure (empty results list) yields `completed`
regardless of the input rows.  The persisted final write carries exactly
this status and the successful count. -/
theorem c2_terminal_status (batch_id : String) (rows : List (List (String × String)))
    (prompt context : String) (output_schema : Option (List String))
    (env : OrchestratorEnv) (fanout : Except String (List RowResult))
    (s : Summary) (writes : List BatchUpdate)
    (h : _process_batch_internal batch_id rows prompt context output_schema env fanout =
      .ok (s, writes)) :
    (s.status = "completed" ↔ s.results.countP (fun r => r.status == "error") = 0)
    ∧ (s.status = "completed" ∨ s.status = "completed_with_errors")
    ∧ (∀ msg, fanout = .error msg → s.results = [])
    ∧ writes = [{ status := "processing", processed_rows := none },
                { status := s.status, processed_rows := some s.successful }] := by
  obtain ⟨-, -, hs, hw⟩ := processBatchInternal_inv _ _ _ _ _ _ _ _ _ h
  subst hs
  refine ⟨?_, ?_, ?_, hw⟩
  · by_cases hz : (deliveredResults fanout).countP (fun r => r.status == "error") = 0 <;>
      simp [hz]
  · by_cases hz : (deliveredResults fanout).countP (fun r => r.status == "error") = 0 <;>
      simp [hz]
  · intro msg hmsg; rw [hmsg]; rfl

/-- C2 witness: concrete instance — a batch with one error result gets
status `completed_with_errors`, matching the amended rule. -/
theorem c2_terminal_status_witness :
    ({ batch_id := "b1", total_rows := 1, successful := 0, failed := 1,
       status := "completed_with_errors",
       results := [{ id := "r0", output := "", status := "error", error := some "x" }] } :
        Summary).status = "completed" ↔
      ([{ id := "r0", output := "", status := "error", error := some "x" }] :
        List RowResult).countP (fun r => r.status == "error") = 0 :=
  (c2_terminal_status "b1" [[("a", "1")]] "p" "" none
    { next_public_supabase_url := some "u", supabase_url := none,
      supabase_service_role_key := some "k",
      clientInit := .ok (), statusUpdateResult := .ok (), finalizeResult := .ok () }
    (.ok [{ id := "r0", output := "", status := "error", error := some "x" }]) _ _ rfl).1

/-! ### C3 — failure isolation at the row boundary -/

/-- C3, counterexample: a failure raised by client initialization
(`genai.configure` / `create_client`, main.py lines 89–90) happens
*before* the `try` block and propagates out of `_process_single_row`
instead of being converted into an error-status result — the claim "any
unexpected failure raised anywhere in the row's processing steps
(… client initialization …) is caught at the row boundary … never
propagates an exception" is false at this input. -/
theorem c3_counterexample :
    _process_single_row "b" [] 0 "p" "" []
        { initResult := .error "init failed", serviceResult := .ok "x",
          insertResult := .ok () } =
      .error "init failed" := rfl

/-- C3 (amended): failures raised inside the guarded section — the service
call — are caught at the row boundary and converted into an error-status
result for that row only, and when client initialization succeeds the row
processor always returns a result rather than raising; but a failure in
client initialization occurs before the `try` boundary and propagates out
of the row-processing function. -/
theorem c3_failure_isolation (batch_id : String) (row : List (String × String))
    (row_index : Nat) (prompt context : String) (output_schema : List String) (env : RowEnv) :
    (env.initResult = .ok () →
      ∃ r, _process_single_row batch_id row row_index prompt context output_schema env = .ok r)
    ∧ (∀ e, env.initResult = .ok () → env.serviceResult = .error e →
      _process_single_row batch_id row row_index prompt context output_schema env =
        .ok { id := rowId batch_id row row_index, output := "", status := "error",
              error := some e })
    ∧ (∀ e, env.initResult = .error e →
      _process_single_row batch_id row row_index prompt context output_schema env =
        .error e) := by
  refine ⟨fun hinit => ?_, fun e hinit hsvc => ?_, fun e hinit => ?_⟩
  · rw [processSingleRow_eq, hinit]
    cases hsvc : env.serviceResult with
    | ok t => exact ⟨_, rfl⟩
    | error e => exact ⟨_, rfl⟩
  · rw [processSingleRow_eq, hinit, hsvc]
  · rw [processSingleRow_eq, hinit]

/-- C3 witness: concrete instance of the amended claim — a service failure
is converted into an error-status result for the row. -/
theorem c3_failure_isolation_witness :
    _process_single_row "b" [("name", "x")] 2 "p" "" []
        { initResult := .ok (), serviceResult := .error "rate limited",
          insertResult := .error "db down" } =
      .ok { id := "b-row-2", output := "", status := "error",
            error := some "rate limited" } :=
  (c3_failure_isolation "b" [("name", "x")] 2 "p" "" []
    { initResult := .ok (), serviceResult := .error "rate limited",
      insertResult := .error "db down" }).2.1 "rate limited" rfl rfl

/-! ### C5 — the prompt compiler -/

/-- One step of the substitution fold. -/
theorem substituteRow_cons (kv : String × String) (rest : List (String × String)) (t : String) :
    substituteRow (kv :: rest) t =
      substituteRow rest
        (if kv.1 != "id" && kv.2 != "" then t.replace (placeholderOf kv.1) kv.2 else t) := by
  simp only [substituteRow, List.foldl_cons]

/-- Entries that are skipped (the `id` key, or an empty value) contribute
nothing to the substitution. -/
theorem substituteRow_filter (row : List (String × String)) (template : String) :
    substituteRow row template =
      substituteRow (row.filter fun kv => kv.1 != "id" && kv.2 != "") template := by
  induction row generalizing template with
  | nil => rfl
  | cons kv rest ih =>
    by_cases hp : (kv.1 != "id" && kv.2 != "") = true <;>
      simp [substituteRow_cons, List.filter_cons, hp, ih]

/-- C5: the compiled prompt is exactly the three-stage composition the
specification describes: (1) for every key of the row other than the
identifier field `id` whose value is non-empty, every occurrence of the
literal placeholder `{{key}}` is replaced by the value (`substituteRow`);
skipped entries — the identifier field and empty values — have no effect
on the output, and with no substitutable column the template is returned
verbatim, leaving unmatched placeholders in place; (2) a non-empty context
is prepended as `Context: <context>` followed by a blank line
(`addContext`); (3) a non-empty output schema appends a trailing line
naming the expected output fields, comma-joined (`addSchemaHint`). -/
theorem c5_prompt_compiler (row : List (String × String)) (template context : String)
    (output_schema : List String) :
    compilePrompt row template context output_schema =
      addSchemaHint output_schema (addContext context (substituteRow row template))
    ∧ substituteRow row template =
        substituteRow (row.filter fun kv => kv.1 != "id" && kv.2 != "") template
    ∧ substituteRow [] template = template :=
  ⟨rfl, substituteRow_filter row template, rfl⟩

/-! ### C6 — fan-out failure degrades to zero results -/

/-- C6: if the parallel fan-out raises (`fanout = .error msg`) while the
orchestrator's own configuration and client initialization succeeded, the
orchestrator does not raise: it aggregates over an empty results list and
returns a summary, and the attempted writes still include the terminal
batch-status update (`completed`, 0 processed rows). -/
theorem c6_fanout_failure (batch_id : String) (rows : List (List (String × String)))
    (prompt context : String) (output_schema : Option (List String))
    (env : OrchestratorEnv) (msg : String)
    (hcfg : orchestratorConfigOk env = true) (hinit : env.clientInit = .ok ()) :
    _process_batch_internal batch_id rows prompt context output_schema env (.error msg) =
      .ok ({ batch_id := batch_id, total_rows := rows.length, successful := 0, failed := 0,
             status := "completed", results := [] },
           [{ status := "processing", processed_rows := none },
            { status := "completed", processed_rows := some 0 }]) := by
  rw [processBatchInternal_ok _ _ _ _ _ _ _ hcfg hinit]
  rfl

/-- C6 witness: concrete two-row batch whose fan-out fails. -/
theorem c6_fanout_failure_witness :
    _process_batch_internal "b9" [[("a", "1")], [("b", "2")]] "p" "" none
        { next_public_supabase_url := none, supabase_url := some "u",
          supabase_service_role_key := some "k",
          clientInit := .ok (), statusUpdateResult := .ok (), finalizeResult := .ok () }
        (.error "starmap crashed") =
      .ok ({ batch_id := "b9", total_rows := 2, successful := 0, failed := 0,
             status := "completed", results := [] },
           [{ status := "processing", processed_rows := none },
            { status := "completed", processed_rows := some 0 }]) :=
  c6_fanout_failure "b9" [[("a", "1")], [("b", "2")]] "p" "" none
    { next_public_supabase_url := none, supabase_url := some "u",
      supabase_service_role_key := some "k",
      clientInit := .ok (), statusUpdateResult := .ok (), finalizeResult := .ok () }
    "starmap crashed" rfl rfl

/-! ### C7 — missing configuration -/

/-- C7: missing configuration is fatal before any row is processed — at
batch level, missing store configuration makes `_process_batch_internal`
raise its `ValueError` without consuming any fan-out result; on the
per-row dispatch path, missing configuration yields an error-status result
for that row alone, and the outcome is independent of the row's effect
environment (in particular no generation-service call is made). -/
theorem c7_missing_config (batch_id : String) (rows : List (List (String × String)))
    (row : List (String × String)) (row_index : Nat) (prompt context : String)
    (output_schema_b : Option (List String)) (output_schema_r : List String)
    (env : OrchestratorEnv) (fanout : Except String (List RowResult))
    (cfg : ModalEnvVars) (renv renv2 : RowEnv) :
    (orchestratorConfigOk env = false →
      _process_batch_internal batch_id rows prompt context output_schema_b env fanout =
        .error "Missing required environment variables: SUPABASE_URL, SUPABASE_SERVICE_ROLE_KEY")
    ∧ (configOk cfg = false →
      process_row batch_id row row_index prompt context output_schema_r cfg renv =
        .ok { id := syntheticRowId batch_id row_index, output := "", status := "error",
              error := some "Missing required environment variables" }
      ∧ process_row batch_id row row_index prompt context output_schema_r cfg renv =
          process_row batch_id row row_index prompt context output_schema_r cfg renv2) := by
  constructor
  · intro hc
    unfold _process_batch_internal
    rw [hc]
    rfl
  · intro hc
    unfold process_row
    rw [hc]
    exact ⟨rfl, rfl⟩

/-- C7 witness: with no environment variables set, a row with an explicit
`id` column still gets the per-row configuration-error result. -/
theorem c7_missing_config_witness :
    process_row "b1" [("id", "custom-1"), ("name", "x")] 3 "p" "" []
        { gemini_api_key := none, next_public_supabase_url := none,
          supabase_url := none, supabase_service_role_key := none }
        { initResult := .ok (), serviceResult := .ok "x", insertResult := .ok () } =
      .ok { id := "b1-row-3", output := "", status := "error",
            error := some "Missing required environment variables" } :=
  ((c7_missing_config "b1" [] [("id", "custom-1"), ("name", "x")] 3 "p" "" none []
    { next_public_supabase_url := none, supabase_url := none,
      supabase_service_role_key := none,
      clientInit := .ok (), statusUpdateResult := .ok (), finalizeResult := .ok () }
    (.ok [])
    { gemini_api_key := none, next_public_supabase_url := none,
      supabase_url := none, supabase_service_role_key := none }
    { initResult := .ok (), serviceResult := .ok "x", insertResult := .ok () }
    { initResult := .ok (), serviceResult := .ok "x", insertResult := .ok () }).2 rfl).1

/-! ### C8 — persistence failures are isolated -/

/-- C8: the outcome of the per-row `batch_results` insert never influences
the row result returned to the caller (the classified status, output and
error detail are unchanged and the row is not aborted), and the outcomes
of the two best-effort `batches` status writes never influence the
orchestrator's summary or its attempted writes. -/
theorem c8_store_write_isolation (batch_id : String) (row : List (String × String))
    (row_index : Nat) (prompt context : String) (output_schema : List String)
    (env : RowEnv) (ins1 ins2 : Except String Unit)
    (batch_id2 : String) (rows : List (List (String × String)))
    (prompt2 context2 : String) (output_schema2 : Option (List String))
    (benv : OrchestratorEnv) (su1 su2 fin1 fin2 : Except String Unit)
    (fanout : Except String (List RowResult)) :
    _process_single_row batch_id row row_index prompt context output_schema
        { env with insertResult := ins1 } =
      _process_single_row batch_id row row_index prompt context output_schema
        { env with insertResult := ins2 }
    ∧ _process_batch_internal batch_id2 rows prompt2 context2 output_schema2
        { benv with statusUpdateResult := su1, finalizeResult := fin1 } fanout =
      _process_batch_internal batch_id2 rows prompt2 context2 output_schema2
        { benv with statusUpdateResult := su2, finalizeResult := fin2 } fanout :=
  ⟨rfl, rfl⟩

/-! ### C4 — row identifier assignment

The synthesized identifier embeds the decimal representation of the row
index (`Nat.repr`); the following small development shows `Nat.repr` is
injective, so synthesized identifiers at distinct indices never collide. -/

/-- Numeric value of a decimal digit character. -/
def digitVal (c : Char) : Nat := c.toNat - 48

/-- `pushDigits a n` appends the decimal digits of `n` to the accumulator
`a` (reading the result as a decimal number). -/
def pushDigits (a n : Nat) : Nat :=
  if h : n < 10 then a * 10 + n
  else pushDigits a (n / 10) * 10 + n % 10
decreasing_by exact Nat.div_lt_self (by omega) (by omega)

/-- Decimal value of a digit string, folded left with accumulator. -/
def valAux (a : Nat) : List Char → Nat
  | [] => a
  | c :: cs => valAux (a * 10 + digitVal c) cs

theorem digitVal_digitChar {m : Nat} (h : m < 10) : digitVal (Nat.digitChar m) = m := by
  interval_cases m <;> rfl

theorem valAux_toDigitsCore :
    ∀ fuel n : Nat, n < fuel → ∀ (a : Nat) (ds : List Char),
      valAux a (Nat.toDigitsCore 10 fuel n ds) = valAux (pushDigits a n) ds := by
  intro fuel
  induction fuel with
  | zero => omega
  | succ fuel ih =>
    intro n hn a ds
    by_cases h0 : n / 10 = 0
    · have h10 : n < 10 := by omega
      simp only [Nat.toDigitsCore, h0, if_true]
      rw [pushDigits, dif_pos h10]
      show valAux (a * 10 + digitVal (Nat.digitChar (n % 10))) ds = valAux (a * 10 + n) ds
      rw [Nat.mod_eq_of_lt h10, digitVal_digitChar h10]
    · have h10 : ¬ n < 10 := by omega
      simp only [Nat.toDigitsCore, h0, if_false]
      rw [ih (n / 10) (by omega) a (Nat.digitChar (n % 10) :: ds)]
      show valAux (pushDigits a (n / 10) * 10 + digitVal (Nat.digitChar (n % 10))) ds = _
      rw [digitVal_digitChar (Nat.mod_lt n (by omega))]
      conv_rhs => rw [pushDigits]
      rw [dif_neg h10]

theorem pushDigits_zero (n : Nat) : pushDigits 0 n = n := by
  induction n using Nat.strong_induction_on with
  | _ n ih =>
    rw [pushDigits]
    by_cases h : n < 10
    · rw [dif_pos h]; omega
    · rw [dif_neg h, ih (n / 10) (Nat.div_lt_self (by omega) (by omega))]; omega

/-- The decimal digit list produced by `Nat.repr` determines the number. -/
theorem toDigits_inj {m n : Nat} (h : Nat.toDigits 10 m = Nat.toDigits 10 n) : m = n := by
  have hm := valAux_toDigitsCore (m + 1) m (Nat.lt_succ_self m) 0 []
  have hn := valAux_toDigitsCore (n + 1) n (Nat.lt_succ_self n) 0 []
  unfold Nat.toDigits at h
  rw [h, hn] at hm
  calc m = pushDigits 0 m := (pushDigits_zero m).symm
    _ = valAux (pushDigits 0 n) [] := hm.symm
    _ = pushDigits 0 n := rfl
    _ = n := pushDigits_zero n

theorem Nat_repr_inj {m n : Nat} (h : Nat.repr m = Nat.repr n) : m = n :=
  toDigits_inj (congrArg String.data h)

/-- Synthesized row identifiers are injective in the index (for a fixed
batch identifier). -/
theorem syntheticRowId_inj (batch_id : String) {i j : Nat}
    (h : syntheticRowId batch_id i = syntheticRowId batch_id j) : i = j := by
  unfold syntheticRowId at h
  have h2 := congrArg String.data h
  simp only [String.data_append] at h2
  exact Nat_repr_inj (congrArg List.asString (List.append_cancel_left h2))

/-- C4, counterexample: the claim fails in two ways.  (1) On the per-row
configuration-error path (main.py line 188) the identifier is always the
synthesized `{batch_id}-row-{index}`: a row carrying the explicit id
`custom-1` at index 3 of batch `b1` gets identifier `b1-row-3`, not
`custom-1`, so the "explicit `id` column wins" rule does not hold on every
path that produces a row result.  (2) Identifier assignment is not
collision-free within a batch: two rows carrying the same explicit id
resolve to the same identifier at distinct indices. -/
theorem c4_counterexample :
    process_row "b1" [("id", "custom-1")] 3 "p" "" []
        { gemini_api_key := none, next_public_supabase_url := none,
          supabase_url := none, supabase_service_role_key := none }
        { initResult := .ok (), serviceResult := .ok "x", insertResult := .ok () } =
      .ok { id := "b1-row-3", output := "", status := "error",
            error := some "Missing required environment variables" }
    ∧ ("b1-row-3" : String) ≠ "custom-1"
    ∧ rowId "b1" [("id", "dup")] 0 = rowId "b1" [("id", "dup")] 1 :=
  ⟨rfl, by decide, rfl⟩

/-- C4 (amended): row-identifier assignment is deterministic (a pure
function of batch id, row and index) and follows: on the normal processing
path the explicit `id` column wins when present — even when its value is
empty — and otherwise the identifier is `{batch_id}-row-{index}`; on the
per-row configuration-error path the identifier is always
`{batch_id}-row-{index}`, ignoring any explicit `id` column.  Synthesized
identifiers are collision-free within a batch: distinct indices give
distinct identifiers (explicit caller-supplied ids carry no such
guarantee). -/
theorem c4_row_identifier (batch_id : String) (row : List (String × String))
    (row_index : Nat) (prompt context : String) (output_schema : List String)
    (cfg : ModalEnvVars) (env : RowEnv) :
    (∀ v, row.lookup "id" = some v → rowId batch_id row row_index = v)
    ∧ (row.lookup "id" = none →
        rowId batch_id row row_index = syntheticRowId batch_id row_index)
    ∧ (∀ r, _process_single_row batch_id row row_index prompt context output_schema env =
          .ok r → r.id = rowId batch_id row row_index)
    ∧ (configOk cfg = true →
        process_row batch_id row row_index prompt context output_schema cfg env =
          _process_single_row batch_id row row_index prompt context output_schema env)
    ∧ (configOk cfg = false →
        ∀ r, process_row batch_id row row_index prompt context output_schema cfg env =
            .ok r → r.id = syntheticRowId batch_id row_index)
    ∧ (∀ i j : Nat, i ≠ j → syntheticRowId batch_id i ≠ syntheticRowId batch_id j) := by
  refine ⟨fun v hv => ?_, fun hv => ?_, fun r hr => ?_, fun hc => ?_, fun hc r hr => ?_,
    fun i j hij h => hij (syntheticRowId_inj batch_id h)⟩
  · unfold rowId; rw [hv]
  · unfold rowId; rw [hv]
  · rw [processSingleRow_eq] at hr
    cases hi : env.initResult with
    | error e => rw [hi] at hr; cases hr
    | ok u =>
      rw [hi] at hr
      cases hs : env.serviceResult with
      | ok t => rw [hs] at hr; cases hr; rfl
      | error e => rw [hs] at hr; cases hr; rfl
  · unfold process_row; rw [hc]; rfl
  · unfold process_row at hr
    rw [hc] at hr
    cases hr
    rfl

/-- C4 witness: concrete instances of the amended rule — explicit id wins
on the normal path, and the synthesized form is used without an explicit
id. -/
theorem c4_row_identifier_witness :
    rowId "b1" [("id", "custom-1"), ("name", "x")] 3 = "custom-1"
    ∧ rowId "b1" [("name", "x")] 3 = syntheticRowId "b1" 3
    ∧ syntheticRowId "b1" 3 ≠ syntheticRowId "b1" 4 :=
  ⟨(c4_row_identifier "b1" [("id", "custom-1"), ("name", "x")] 3 "p" "" []
      { gemini_api_key := some "g", next_public_supabase_url := some "u",
        supabase_url := none, supabase_service_role_key := some "k" }
      { initResult := .ok (), serviceResult := .ok "x", insertResult := .ok () }).1
      "custom-1" rfl,
   (c4_row_identifier "b1" [("name", "x")] 3 "p" "" []
      { gemini_api_key := some "g", next_public_supabase_url := some "u",
        supabase_url := none, supabase_service_role_key := some "k" }
      { initResult := .ok (), serviceResult := .ok "x", insertResult := .ok () }).2.1 rfl,
   (c4_row_identifier "b1" [("name", "x")] 3 "p" "" []
      { gemini_api_key := some "g", next_public_supabase_url := some "u",
        supabase_url := none, supabase_service_role_key := some "k" }
      { initResult := .ok (), serviceResult := .ok "x", insertResult := .ok () }).2.2.2.2.2
      3 4 (by decide)⟩

/-! ### C9 — order preservation under arbitrary completion order -/

theorem lookup_enumFrom (l : List RowResult) :
    ∀ n i : Nat, (List.enumFrom n l).lookup (n + i) = l[i]? := by
  induction l with
  | nil => intro n i; rfl
  | cons a t ih =>
    intro n i
    cases i with
    | zero =>
      have heq : (n + 0 == n) = true := by simp
      simp [List.enumFrom, List.lookup, heq]
    | succ j =>
      have hne : (n + (j + 1) == n) = false := by
        simp only [beq_eq_false_iff_ne, ne_eq]
        omega
      have h1 : n + (j + 1) = (n + 1) + j := by omega
      simp only [List.enumFrom, List.lookup, hne, List.getElem?_cons_succ]
      rw [h1, ih (n + 1) j]

theorem lookup_eq_of_perm :
    ∀ {l₁ l₂ : List (Nat × RowResult)}, l₁.Perm l₂ →
      (l₁.map Prod.fst).Nodup → ∀ a : Nat, l₁.lookup a = l₂.lookup a := by
  intro l₁ l₂ p
  induction p with
  | nil => intro _ _; rfl
  | cons x p ih =>
    intro nd a
    obtain ⟨k, b⟩ := x
    simp only [List.map_cons, List.nodup_cons] at nd
    simp only [List.lookup]
    cases hx : (a == k) with
    | true => rfl
    | false => simp only [ih nd.2 a]
  | swap x y l =>
    intro nd a
    obtain ⟨k₁, b₁⟩ := x
    obtain ⟨k₂, b₂⟩ := y
    simp only [List.map_cons, List.nodup_cons, List.mem_cons] at nd
    have hk : k₂ ≠ k₁ := fun h => nd.1 (Or.inl h)
    simp only [List.lookup]
    cases h₂ : (a == k₂) with
    | true =>
      have ha : a = k₂ := eq_of_beq h₂
      have h₁ : (a == k₁) = false := beq_eq_false_iff_ne.mpr (ha ▸ hk)
      rw [h₁]
    | false =>
      cases h₁ : (a == k₁) with
      | true => rfl
      | false => rfl
  | trans p₁ p₂ ih₁ ih₂ =>
    intro nd a
    have nd₂ := ((p₁.map Prod.fst).nodup_iff).mp nd
    rw [ih₁ nd a, ih₂ nd₂ a]

theorem filterMap_getElem? (l : List RowResult) :
    (List.range l.length).filterMap (fun i => l[i]?) = l := by
  induction l with
  | nil => rfl
  | cons a t ih =>
    simp only [List.length_cons, List.range_succ_eq_map, List.filterMap_cons,
      List.getElem?_cons_zero, List.filterMap_map]
    rw [show ((fun i => (a :: t)[i]?) ∘ Nat.succ) = (fun i : Nat => t[i]?) from
      funext fun i => by simp, ih]

/-- Realigning an arbitrary completion order of the enumerated results by
input index recovers the results in input order. -/
theorem alignByIndex_perm {rs : List RowResult} {completions : List (Nat × RowResult)}
    (h : completions.Perm rs.enum) : alignByIndex rs.length completions = rs := by
  have nd_enum : (rs.enum.map Prod.fst).Nodup := List.nodup_enum_map_fst rs
  have nd : (completions.map Prod.fst).Nodup := ((h.map Prod.fst).nodup_iff).mpr nd_enum
  have hl : ∀ i : Nat, completions.lookup i = rs[i]? := by
    intro i
    rw [lookup_eq_of_perm h nd i]
    have h0 := lookup_enumFrom rs 0 i
    simpa [List.enum] using h0
  unfold alignByIndex
  rw [show (fun i : Nat => completions.lookup i) = (fun i : Nat => rs[i]?) from funext hl]
  exact filterMap_getElem? rs

/-- C9: order preservation.  Suppose every `process_row` task submitted to
the fan-out returns a result (`starmapOutcomes … = rs.map Except.ok`, with
`rs` the per-row results in input order), and the tasks complete in an
*arbitrary* order — `completions` is any permutation of the enumerated
results.  Modal `starmap` yields outputs aligned to input order
(`alignByIndex`), and then the batch summary's `results` list equals `rs`:
the result at position `i` is exactly the outcome of `process_row` on
input row `i`. -/
theorem c9_order_preservation (batch_id : String) (rows : List (List (String × String)))
    (prompt context : String) (output_schema : Option (List String))
    (cfg : ModalEnvVars) (rowEnvs : Nat → RowEnv) (env : OrchestratorEnv)
    (rs : List RowResult) (completions : List (Nat × RowResult))
    (s : Summary) (writes : List BatchUpdate)
    (hout : starmapOutcomes batch_id rows prompt context output_schema cfg rowEnvs =
      rs.map Except.ok)
    (hperm : completions.Perm rs.enum)
    (hrun : _process_batch_internal batch_id rows prompt context output_schema env
        (.ok (alignByIndex rows.length completions)) = .ok (s, writes)) :
    s.results = rs
    ∧ ∀ (i : Nat) (h1 : i < rows.length) (h2 : i < rs.length),
        process_row batch_id rows[i] i prompt context (output_schema.getD []) cfg
          (rowEnvs i) = .ok rs[i] := by
  have hlen : rows.length = rs.length := by
    have h := congrArg List.length hout
    simpa [starmapOutcomes] using h
  have halign : alignByIndex rows.length completions = rs := by
    rw [hlen]; exact alignByIndex_perm hperm
  obtain ⟨-, -, hs, -⟩ := processBatchInternal_inv _ _ _ _ _ _ _ _ _ hrun
  constructor
  · rw [hs]
    show deliveredResults (.ok (alignByIndex rows.length completions)) = rs
    rw [show deliveredResults (.ok (alignByIndex rows.length completions)) =
      alignByIndex rows.length completions from rfl, halign]
  · intro i h1 h2
    have h3 := congrArg (fun l => l[i]?) hout
    simp only [starmapOutcomes, List.enum, List.getElem?_map, List.getElem?_enumFrom,
      Nat.zero_add, List.getElem?_eq_getElem h1, List.getElem?_eq_getElem h2,
      Option.map_some'] at h3
    exact Option.some.inj h3

/-- C9 witness: a two-row batch whose tasks complete in reverse order
still returns its results in input order. -/
theorem c9_order_preservation_witness :
    ({ batch_id := "b1", total_rows := 2, successful := 2, failed := 0,
       status := "completed",
       results := [{ id := "b1-row-0", output := "out", status := "success", error := none },
                   { id := "b1-row-1", output := "out", status := "success", error := none }] } :
      Summary).results =
      [{ id := "b1-row-0", output := "out", status := "success", error := none },
       { id := "b1-row-1", output := "out", status := "success", error := none }] :=
  (c9_order_preservation "b1" [[("a", "1")], [("b", "2")]] "p" "" none
    { gemini_api_key := some "g", next_public_supabase_url := some "u",
      supabase_url := none, supabase_service_role_key := some "k" }
    (fun _ => { initResult := .ok (), serviceResult := .ok "out", insertResult := .ok () })
    { next_public_supabase_url := some "u", supabase_url := none,
      supabase_service_role_key := some "k",
      clientInit := .ok (), statusUpdateResult := .ok (), finalizeResult := .ok () }
    [{ id := "b1-row-0", output := "out", status := "success", error := none },
     { id := "b1-row-1", output := "out", status := "success", error := none }]
    ([(1, ⟨"b1-row-1", "out", "success", none⟩),
      (0, ⟨"b1-row-0", "out", "success", none⟩)] : List (Nat × RowResult))
    _ _ rfl
    (List.Perm.swap ((0 : Nat), (⟨"b1-row-0", "out", "success", none⟩ : RowResult))
      (1, ⟨"b1-row-1", "out", "success", none⟩) [])
    rfl).1

/-! ### C10 — result shape invariants -/

theorem countP_status_partition :
    ∀ l : List RowResult, (∀ r ∈ l, r.status = "success" ∨ r.status = "error") →
      l.countP (fun r => r.status == "success") + l.countP (fun r => r.status == "error") =
        l.length := by
  intro l
  induction l with
  | nil => intro _; rfl
  | cons a t ih =>
    intro h
    have ha := h a (List.mem_cons_self a t)
    have ht := ih fun r hr => h r (List.mem_cons_of_mem a hr)
    rw [List.countP_cons, List.countP_cons, List.length_cons]
    rcases ha with ha | ha <;> rw [ha] <;> simp <;> omega

/-- C10: every result produced by `process_row` has status exactly
`success` or `error`; a `success` result has a null error field and a
non-empty output (an empty model response is replaced by the fallback
text), and an `error` result has an empty output and a non-null error.
Consequently in any batch summary whose results all satisfy the
status dichotomy, `successful + failed` equals the length of the results
list. -/
theorem c10_result_invariants (batch_id : String) (row : List (String × String))
    (row_index : Nat) (prompt context : String) (output_schema : List String)
    (cfg : ModalEnvVars) (env : RowEnv)
    (rows : List (List (String × String))) (output_schema_b : Option (List String))
    (benv : OrchestratorEnv) (fanout : Except String (List RowResult)) :
    (∀ r, process_row batch_id row row_index prompt context output_schema cfg env = .ok r →
      (r.status = "success" ∨ r.status = "error")
      ∧ (r.status = "success" → r.error = none ∧ r.output ≠ "")
      ∧ (r.status = "error" → r.output = "" ∧ r.error ≠ none))
    ∧ (∀ (s : Summary) (writes : List BatchUpdate),
        _process_batch_internal batch_id rows prompt context output_schema_b benv fanout =
          .ok (s, writes) →
        (∀ r ∈ s.results, r.status = "success" ∨ r.status = "error") →
        s.successful + s.failed = s.results.length) := by
  constructor
  · intro r hr
    unfold process_row at hr
    by_cases hc : configOk cfg
    · rw [hc] at hr
      simp only [Bool.not_true, Bool.false_eq_true, if_false] at hr
      rw [processSingleRow_eq] at hr
      cases hi : env.initResult with
      | error e => rw [hi] at hr; cases hr
      | ok u =>
        rw [hi] at hr
        cases hs : env.serviceResult with
        | ok t =>
          rw [hs] at hr
          cases hr
          refine ⟨Or.inl rfl, fun _ => ⟨rfl, ?_⟩,
            fun h => absurd (show ("success" : String) = "error" from h) (by decide)⟩
          show (if (t != "") = true then t else noResponseFallback) ≠ ""
          cases ht : (t != "") with
          | true => simpa [ht] using bne_iff_ne.mp ht
          | false => simp only [ht, Bool.false_eq_true, if_false]; decide
        | error e =>
          rw [hs] at hr
          cases hr
          exact ⟨Or.inr rfl,
            fun h => absurd (show ("error" : String) = "success" from h) (by decide),
            fun _ => ⟨rfl, by simp⟩⟩
    · simp only [Bool.not_eq_true] at hc
      rw [hc] at hr
      simp only [Bool.not_false, if_true] at hr
      cases hr
      exact ⟨Or.inr rfl,
        fun h => absurd (show ("error" : String) = "success" from h) (by decide),
        fun _ => ⟨rfl, by simp⟩⟩
  · intro s writes hrun hstat
    obtain ⟨-, -, hs, -⟩ := processBatchInternal_inv _ _ _ _ _ _ _ _ _ hrun
    have hres : s.results = deliveredResults fanout := by rw [hs]
    have hsucc : s.successful =
        (deliveredResults fanout).countP (fun r => r.status == "success") := by rw [hs]
    have hfail : s.failed =
        (deliveredResults fanout).countP (fun r => r.status == "error") := by rw [hs]
    rw [hres, hsucc, hfail]
    exact countP_status_partition (deliveredResults fanout) (hres ▸ hstat)

/-- C10 witness: a concrete successful row result satisfies the status
dichotomy. -/
theorem c10_result_invariants_witness :
    ({ id := "b1-row-0", output := "out", status := "success", error := none } :
        RowResult).status = "success" ∨
      ({ id := "b1-row-0", output := "out", status := "success", error := none } :
        RowResult).status = "error" :=
  (((c10_result_invariants "b1" [("a", "1")] 0 "p" "" []
    { gemini_api_key := some "g", next_public_supabase_url := some "u",
      supabase_url := none, supabase_service_role_key := some "k" }
    { initResult := .ok (), serviceResult := .ok "out", insertResult := .ok () }
    [] none
    { next_public_supabase_url := some "u", supabase_url := none,
      supabase_service_role_key := some "k",
      clientInit := .ok (), statusUpdateResult := .ok (), finalizeResult := .ok () }
    (.ok [])).1
    { id := "b1-row-0", output := "out", status := "success", error := none } rfl).1)

end BulkGpt
